import Mathlib

/-!
Shallow embedding of `raiden/message_handler.py` (class `MessageHandler`):
the inbound-message dispatcher, the per-kind handlers, and the
acknowledgment store (`store_ack_message`) for delegated ("light") clients.

Modelling conventions:
* Addresses, hashes, secrets, identifiers, amounts, envelopes, balance
  proofs and routes are opaque data; they are modelled as `Nat`.
* The `RaidenService` object together with the external collaborators
  (`views`, `get_best_routes`, the secret registry, `random_secret`,
  `balanceproof_from_envelope`, the `LightClientMessageHandler` lookup and
  ordering table) is modelled as an environment `Env` of pure functions
  over the current chain-state snapshot, following the source's use of
  them as calls on a snapshot taken once per handler.
* Side effects (state-change submissions via
  `raiden.handle_and_track_state_change`, structlog calls, invocations of
  the target/mediation flows, secret generation, ack-store attempts and
  secret-registry queries) are recorded in an `Effects` record returned by
  each handler; a Python exception propagating to the caller is the
  `raised` flag of the result.
* Python's `type(message) == C` dispatch tests the exact runtime class.
  The `Message` inductive therefore has one constructor per exact class;
  a message whose exact class is NOT one of the eight recognized classes -
  including an instance of a structural specialization/subclass of a
  recognized class - is the `unknown` constructor, which carries its
  `cmdid` and (for a specialization of the locked-transfer layout) the
  structural payload it may share with a recognized kind.
-/

namespace Raiden

abbrev Address := Nat
abbrev SecretHash := Nat
abbrev Secret := Nat
abbrev PaymentId := Nat
abbrev MessageId := Nat
abbrev Amount := Nat
abbrev Expiration := Nat
abbrev Envelope := Nat
abbrev BalanceProof := Nat
abbrev Route := Nat
abbrev TokenNetworkAddress := Nat

/-- `raiden.constants.EMPTY_SECRET`: the all-zero sentinel secret. -/
def EMPTY_SECRET : Secret := 0

/-- A hash-time lock as carried by locked/refund transfers
(`message.lock.amount`, `message.lock.secrethash`). -/
structure Lock where
  amount : Amount
  secrethash : SecretHash
deriving Repr, DecidableEq

/-- Payload of a `SecretRequest` message. -/
structure SecretRequestMsg where
  payment_identifier : PaymentId
  amount : Amount
  expiration : Expiration
  secrethash : SecretHash
  sender : Address
deriving Repr, DecidableEq

/-- Payload of a `RevealSecret` message. -/
structure RevealSecretMsg where
  secret : Secret
  sender : Address
deriving Repr, DecidableEq

/-- Payload of an `Unlock` message (a signed envelope message). -/
structure UnlockMsg where
  message_identifier : MessageId
  secret : Secret
  envelope : Envelope
deriving Repr, DecidableEq

/-- Payload of a `LockExpired` message (a signed envelope message). -/
structure LockExpiredMsg where
  message_identifier : MessageId
  secrethash : SecretHash
  envelope : Envelope
deriving Repr, DecidableEq

/-- Shared structural payload of `LockedTransfer` and `RefundTransfer`
messages (in the source `RefundTransfer` has the locked-transfer layout):
the lock, the declared target, the token network address and the sender. -/
structure LockedTransferData where
  lock : Lock
  target : Address
  token_network_address : TokenNetworkAddress
  sender : Address
deriving Repr, DecidableEq

/-- Payload of a `Delivered` message. -/
structure DeliveredMsg where
  sender : Address
  delivered_message_identifier : MessageId
deriving Repr, DecidableEq

/-- Payload of a `Processed` message. -/
structure ProcessedMsg where
  sender : Address
  message_identifier : MessageId
deriving Repr, DecidableEq

/-- An inbound message, tagged by its exact runtime class.  The `unknown`
constructor stands for every exact class that is none of the eight
recognized ones; its optional `LockedTransferData` payload represents a
structural specialization/subtype of a recognized kind that carries the
base kind's fields but has a different exact class. -/
inductive Message where
  | secretRequest (m : SecretRequestMsg)
  | revealSecret (m : RevealSecretMsg)
  | unlock (m : UnlockMsg)
  | lockExpired (m : LockExpiredMsg)
  | refundTransfer (m : LockedTransferData)
  | lockedTransfer (m : LockedTransferData)
  | delivered (m : DeliveredMsg)
  | processed (m : ProcessedMsg)
  | unknown (cmdid : Nat) (payload : Option LockedTransferData)
deriving Repr, DecidableEq

/-- The signed locked transfer reconstructed from a refund message by the
external `lockedtransfersigned_from_message`; the handler reads its
`target` and `lock`. -/
structure LockedTransferSigned where
  target : Address
  lock : Lock
deriving Repr, DecidableEq

/-- State changes constructed by the handlers, one constructor per
variant used in the source; the light-client variants additionally carry
the originating message. -/
inductive StateChange where
  | receiveSecretRequest (payment_identifier : PaymentId) (amount : Amount)
      (expiration : Expiration) (secrethash : SecretHash) (sender : Address)
  | receiveSecretRequestLight (payment_identifier : PaymentId) (amount : Amount)
      (expiration : Expiration) (secrethash : SecretHash) (sender : Address)
      (message : SecretRequestMsg)
  | receiveSecretReveal (secret : Secret) (sender : Address)
  | receiveSecretRevealLight (secret : Secret) (sender : Address)
      (message : RevealSecretMsg)
  | receiveUnlock (message_identifier : MessageId) (secret : Secret)
      (balance_proof : BalanceProof)
  | receiveLockExpired (balance_proof : BalanceProof) (secrethash : SecretHash)
      (message_identifier : MessageId)
  | receiveTransferRefundCancelRoute (routes : List Route)
      (transfer : LockedTransferSigned) (secret : Secret)
  | receiveTransferRefund (transfer : LockedTransferSigned) (routes : List Route)
  | receiveProcessed (sender : Address) (message_identifier : MessageId)
  | receiveDelivered (sender : Address) (delivered_message_identifier : MessageId)
deriving Repr, DecidableEq

/-- A `Processed` or `Delivered` acknowledgment, the argument type of
`store_ack_message` (`Union[Processed, Delivered]` in the source). -/
inductive Ack where
  | processed (m : ProcessedMsg)
  | delivered (m : DeliveredMsg)
deriving Repr, DecidableEq

/-- Modelled from the spec: the structured content of a stored protocol
message body (`json.loads` of the signed or unsigned body); the store only
reads its declared kind tag `json_message["type"]`. -/
structure JsonMsg where
  type : String
deriving Repr, DecidableEq

/-- Modelled from the spec: the `StoredProtocolMessage` record returned by
the external `get_light_client_protocol_message_by_identifier` lookup,
holding the optional signed body, the unsigned body and the
delegated-client payment identifier. -/
structure ProtocolMessage where
  signed_message : Option JsonMsg
  unsigned_message : JsonMsg
  light_client_payment_id : PaymentId
deriving Repr, DecidableEq

/-- Modelled from the spec: one acknowledgment record persisted by the
external `store_light_client_protocol_message` collaborator, keyed by the
(message identifier, payment identifier, ordinal) triple. -/
structure StoredRecord where
  message_identifier : MessageId
  payment_id : PaymentId
  order : Int
  content : Ack
  is_ack : Bool
deriving Repr, DecidableEq

/-- Modelled from the spec: the acknowledgment records held by the durable
log (`WriteAheadLog`); `record_exists` is membership on the key triple and
`store_message` prepends a record. -/
abbrev Wal := List StoredRecord

inductive LogLevel where
  | error
  | warning
  | info
deriving Repr, DecidableEq

/-- One structlog call: its level and a tag for the message text. -/
structure LogEntry where
  level : LogLevel
  text : String
deriving Repr, DecidableEq

/-- Which handler method `on_message` invoked. -/
inductive HandlerName where
  | secretrequest
  | revealsecret
  | unlock
  | lockexpired
  | refundtransfer
  | lockedtransfer
  | delivered
  | processed
deriving Repr, DecidableEq

/-- The observable side effects of handling one message. -/
structure Effects where
  handlers : List HandlerName
  stateChanges : List StateChange
  logs : List LogEntry
  registryQueries : List (SecretHash × String)
  targetCalls : Nat
  mediateCalls : Nat
  randomSecretCalls : Nat
  storeAttempts : Nat
deriving Repr, DecidableEq

/-- No side effects. -/
def Effects.none : Effects :=
  { handlers := [], stateChanges := [], logs := [], registryQueries := [],
    targetCalls := 0, mediateCalls := 0, randomSecretCalls := 0, storeAttempts := 0 }

/-- The result of a handler: its effects, the durable log after any ack
stores, and whether a Python exception propagated to the caller. -/
structure HResult where
  effects : Effects
  wal : Wal
  raised : Bool
deriving Repr, DecidableEq

/-- The node (`RaidenService`) and its external collaborators, as pure
functions over the chain-state snapshot the handler takes
(`views.state_from_raiden`).  Fixed node parameters of `get_best_routes`
(`one_to_n_address`, `config`, `privkey`) are absorbed into the closure;
its discarded second component is dropped.  `random_secret` is the value
produced by the external `raiden.utils.random_secret`.
`random_secret_nonempty` is modelled from the spec: the generated secret
is a fresh random secret distinct from the empty sentinel (the generator
itself is not under the embedded source). -/
structure Env where
  address : Address
  is_secret_registered : SecretHash → String → Bool
  get_best_routes : TokenNetworkAddress → Address → Address → Amount → Address → List Route
  get_transfer_role : SecretHash → String
  get_transfer_secret : SecretHash → Secret
  lockedtransfersigned_from_message : LockedTransferData → LockedTransferSigned
  balanceproof_from_envelope : Envelope → Option BalanceProof
  random_secret : Secret
  random_secret_nonempty : random_secret ≠ EMPTY_SECRET
  get_protocol_message : MessageId → ProtocolMessage
  get_order_for_ack : String → String → Int

/-- `message.__class__.__name__.lower()` for an acknowledgment. -/
def ackName : Ack → String
  | .processed _ => "processed"
  | .delivered _ => "delivered"

/-- Lines 216-221 of the source: the acknowledged message identifier
(`delivered_message_identifier` for `Delivered`, `message_identifier` for
`Processed`). -/
def ackMessageIdentifier : Ack → MessageId
  | .processed m => m.message_identifier
  | .delivered m => m.delivered_message_identifier

/-- Lines 225-231 of the source: the structured body of the stored
principal message, preferring the signed form when present. -/
def principal_json (protocol_message : ProtocolMessage) : JsonMsg :=
  match protocol_message.signed_message with
  | Option.none => protocol_message.unsigned_message
  | Option.some s => s

/-- Does a stored record match the (message identifier, payment
identifier, ordinal) key triple? -/
def storedKeyMatches (mid : MessageId) (pid : PaymentId) (ord : Int)
    (r : StoredRecord) : Bool :=
  r.message_identifier == mid && r.payment_id == pid && r.order == ord

/-- How many stored records carry a given key triple. -/
def countKey (wal : Wal) (mid : MessageId) (pid : PaymentId) (ord : Int) : Nat :=
  wal.countP (storedKeyMatches mid pid ord)

/-- `MessageHandler.store_ack_message` (lines 213-244): look up the
principal message, consult the ordering table, and either log an error
(no pairing), log at info level (duplicate), or persist the ack record.
Returns the structlog calls and the resulting durable log. -/
def store_ack_message (raiden : Env) (message : Ack) (wal : Wal) :
    List LogEntry × Wal :=
  let message_identifier := ackMessageIdentifier message
  let protocol_message := raiden.get_protocol_message message_identifier
  let json_message := principal_json protocol_message
  let order := raiden.get_order_for_ack json_message.type (ackName message)
  if order = -1 then
    ([⟨.error, "Unable to find principal message for"⟩], wal)
  else
    let exists_stored := wal.any
      (storedKeyMatches message_identifier protocol_message.light_client_payment_id order)
    if exists_stored then
      ([⟨.info, "Message for lc already received, ignoring db storage"⟩], wal)
    else
      ([], { message_identifier := message_identifier,
             payment_id := protocol_message.light_client_payment_id,
             order := order, content := message, is_ack := true } :: wal)

/-- `MessageHandler.handle_message_secretrequest` (lines 77-99). -/
def handle_message_secretrequest (raiden : Env) (message : SecretRequestMsg)
    (is_light_client : Bool) (wal : Wal) : HResult :=
  let _ := raiden
  if is_light_client then
    { effects := { Effects.none with
        stateChanges := [StateChange.receiveSecretRequestLight
          message.payment_identifier message.amount message.expiration
          message.secrethash message.sender message] },
      wal := wal, raised := false }
  else
    { effects := { Effects.none with
        stateChanges := [StateChange.receiveSecretRequest
          message.payment_identifier message.amount message.expiration
          message.secrethash message.sender] },
      wal := wal, raised := false }

/-- `MessageHandler.handle_message_revealsecret` (lines 101-108). -/
def handle_message_revealsecret (raiden : Env) (message : RevealSecretMsg)
    (is_light_client : Bool) (wal : Wal) : HResult :=
  let _ := raiden
  if is_light_client then
    { effects := { Effects.none with
        stateChanges := [StateChange.receiveSecretRevealLight
          message.secret message.sender message] },
      wal := wal, raised := false }
  else
    { effects := { Effects.none with
        stateChanges := [StateChange.receiveSecretReveal message.secret message.sender] },
      wal := wal, raised := false }

/-- `MessageHandler.handle_message_unlock` (lines 110-118): the balance
proof is derived first; a derivation failure propagates before any state
change is submitted. -/
def handle_message_unlock (raiden : Env) (message : UnlockMsg) (wal : Wal) : HResult :=
  match raiden.balanceproof_from_envelope message.envelope with
  | Option.none => { effects := Effects.none, wal := wal, raised := true }
  | Option.some balance_proof =>
    { effects := { Effects.none with
        stateChanges := [StateChange.receiveUnlock
          message.message_identifier message.secret balance_proof] },
      wal := wal, raised := false }

/-- `MessageHandler.handle_message_lockexpired` (lines 120-128). -/
def handle_message_lockexpired (raiden : Env) (message : LockExpiredMsg)
    (wal : Wal) : HResult :=
  match raiden.balanceproof_from_envelope message.envelope with
  | Option.none => { effects := Effects.none, wal := wal, raised := true }
  | Option.some balance_proof =>
    { effects := { Effects.none with
        stateChanges := [StateChange.receiveLockExpired
          balance_proof message.secrethash message.message_identifier] },
      wal := wal, raised := false }

/-- `MessageHandler.handle_message_refundtransfer` (lines 130-169). -/
def handle_message_refundtransfer (raiden : Env) (message : LockedTransferData)
    (wal : Wal) : HResult :=
  let token_network_address := message.token_network_address
  let from_transfer := raiden.lockedtransfersigned_from_message message
  let routes := raiden.get_best_routes token_network_address raiden.address
    from_transfer.target from_transfer.lock.amount message.sender
  let role := raiden.get_transfer_role from_transfer.lock.secrethash
  if role = "initiator" then
    let old_secret := raiden.get_transfer_secret from_transfer.lock.secrethash
    let routes := if old_secret = EMPTY_SECRET then [] else routes
    let secret := raiden.random_secret
    { effects := { Effects.none with
        stateChanges := [StateChange.receiveTransferRefundCancelRoute
          routes from_transfer secret],
        randomSecretCalls := 1 },
      wal := wal, raised := false }
  else
    { effects := { Effects.none with
        stateChanges := [StateChange.receiveTransferRefund from_transfer routes] },
      wal := wal, raised := false }

/-- `MessageHandler.handle_message_lockedtransfer` (lines 171-197): query
the secret registry at block identifier "latest"; drop with a warning if
registered, otherwise start the target or mediation flow. -/
def handle_message_lockedtransfer (raiden : Env) (message : LockedTransferData)
    (wal : Wal) : HResult :=
  let secrethash := message.lock.secrethash
  let registered := raiden.is_secret_registered secrethash "latest"
  if registered then
    { effects := { Effects.none with
        registryQueries := [(secrethash, "latest")],
        logs := [⟨.warning, "Ignoring received locked transfer since it is already registered in the secret registry"⟩] },
      wal := wal, raised := false }
  else if message.target = raiden.address then
    { effects := { Effects.none with
        registryQueries := [(secrethash, "latest")], targetCalls := 1 },
      wal := wal, raised := false }
  else
    { effects := { Effects.none with
        registryQueries := [(secrethash, "latest")], mediateCalls := 1 },
      wal := wal, raised := false }

/-- `MessageHandler.handle_message_processed` (lines 199-204). -/
def handle_message_processed (raiden : Env) (message : ProcessedMsg)
    (is_light_client : Bool) (wal : Wal) : HResult :=
  let eff := { Effects.none with
    stateChanges := [StateChange.receiveProcessed message.sender message.message_identifier] }
  if is_light_client then
    let r := store_ack_message raiden (Ack.processed message) wal
    { effects := { eff with logs := r.1, storeAttempts := 1 }, wal := r.2, raised := false }
  else
    { effects := eff, wal := wal, raised := false }

/-- `MessageHandler.handle_message_delivered` (lines 206-211). -/
def handle_message_delivered (raiden : Env) (message : DeliveredMsg)
    (is_light_client : Bool) (wal : Wal) : HResult :=
  let eff := { Effects.none with
    stateChanges := [StateChange.receiveDelivered message.sender message.delivered_message_identifier] }
  if is_light_client then
    let r := store_ack_message raiden (Ack.delivered message) wal
    { effects := { eff with logs := r.1, storeAttempts := 1 }, wal := r.2, raised := false }
  else
    { effects := eff, wal := wal, raised := false }

/-- Record which handler `on_message` invoked. -/
def tagHandler (name : HandlerName) (r : HResult) : HResult :=
  { r with effects := { r.effects with handlers := name :: r.effects.handlers } }

/-- `MessageHandler.on_message` (lines 39-75): exact-class dispatch over
the eight recognized kinds; any other exact class (also a specialization
of a recognized class) reaches the final `else` and is logged as an
unknown cmdid. -/
def on_message (raiden : Env) (message : Message) (is_light_client : Bool)
    (wal : Wal) : HResult :=
  match message with
  | .secretRequest m =>
    tagHandler .secretrequest (handle_message_secretrequest raiden m is_light_client wal)
  | .revealSecret m =>
    tagHandler .revealsecret (handle_message_revealsecret raiden m is_light_client wal)
  | .unlock m =>
    tagHandler .unlock (handle_message_unlock raiden m wal)
  | .lockExpired m =>
    tagHandler .lockexpired (handle_message_lockexpired raiden m wal)
  | .refundTransfer m =>
    tagHandler .refundtransfer (handle_message_refundtransfer raiden m wal)
  | .lockedTransfer m =>
    tagHandler .lockedtransfer (handle_message_lockedtransfer raiden m wal)
  | .delivered m =>
    tagHandler .delivered (handle_message_delivered raiden m is_light_client wal)
  | .processed m =>
    tagHandler .processed (handle_message_processed raiden m is_light_client wal)
  | .unknown _ _ =>
    { effects := { Effects.none with logs := [⟨.error, "Unknown message cmdid"⟩] },
      wal := wal, raised := false }

/-- The delegated-client payment identifier of the ack's principal
message record (`protocol_message.light_client_payment_id`). -/
def ackPaymentId (raiden : Env) (message : Ack) : PaymentId :=
  (raiden.get_protocol_message (ackMessageIdentifier message)).light_client_payment_id

/-- The ordinal the ordering table assigns to this ack against its
principal message's kind tag (`get_order_for_ack`, line 232). -/
def ackOrder (raiden : Env) (message : Ack) : Int :=
  raiden.get_order_for_ack
    (principal_json (raiden.get_protocol_message (ackMessageIdentifier message))).type
    (ackName message)

/-- A concrete environment used to instantiate the theorems: the node has
address 0, the registry reports no secret registered, the route resolver
returns one route, the node is a mediator, no secret is known, balance
proofs derive successfully, and the ordering table assigns ordinal 3. -/
def baseEnv : Env :=
  { address := 0,
    is_secret_registered := fun _ _ => false,
    get_best_routes := fun _ _ _ _ _ => [7],
    get_transfer_role := fun _ => "mediator",
    get_transfer_secret := fun _ => EMPTY_SECRET,
    lockedtransfersigned_from_message := fun m => ⟨m.target, m.lock⟩,
    balanceproof_from_envelope := fun e => Option.some e,
    random_secret := 5,
    random_secret_nonempty := by decide,
    get_protocol_message := fun _ => ⟨Option.none, ⟨"lockedtransfer"⟩, 9⟩,
    get_order_for_ack := fun _ _ => 3 }

/-- A concrete locked/refund transfer payload: lock amount 1, secret hash
2, target 3, token network 4, sender 5. -/
def sampleTransfer : LockedTransferData := ⟨⟨1, 2⟩, 3, 4, 5⟩

/-- C1: for every inbound message whose exact declared kind is not one of
the eight recognized kinds - including a structural
specialization/subtype of a recognized kind - dispatch invokes no
handler, produces zero state-change submissions, logs exactly one error,
and raises nothing to the caller. -/
theorem dispatch_unknown_kind_dropped (raiden : Env) (wal : Wal)
    (is_light_client : Bool) (cmdid : Nat) (payload : Option LockedTransferData) :
    (on_message raiden (.unknown cmdid payload) is_light_client wal).effects.handlers = [] ∧
    (on_message raiden (.unknown cmdid payload) is_light_client wal).effects.stateChanges = [] ∧
    (on_message raiden (.unknown cmdid payload) is_light_client wal).effects.logs =
      [⟨.error, "Unknown message cmdid"⟩] ∧
    (on_message raiden (.unknown cmdid payload) is_light_client wal).raised = false ∧
    (on_message raiden (.unknown cmdid payload) is_light_client wal).wal = wal :=
  ⟨rfl, rfl, rfl, rfl, rfl⟩

/-- C2: every LockedTransfer handler run queries the secret registry for
the transfer's secret hash at block identifier "latest" and at no other
block; when the secret is registered there, the handler logs one warning
and returns with no state-change submission and no target/mediation flow
invocation. -/
theorem lockedtransfer_latest_query_and_registered_drop (raiden : Env)
    (wal : Wal) (m : LockedTransferData) :
    (handle_message_lockedtransfer raiden m wal).effects.registryQueries =
      [(m.lock.secrethash, "latest")] ∧
    (raiden.is_secret_registered m.lock.secrethash "latest" = true →
      (handle_message_lockedtransfer raiden m wal).effects.logs =
        [⟨.warning, "Ignoring received locked transfer since it is already registered in the secret registry"⟩] ∧
      (handle_message_lockedtransfer raiden m wal).effects.stateChanges = [] ∧
      (handle_message_lockedtransfer raiden m wal).effects.targetCalls = 0 ∧
      (handle_message_lockedtransfer raiden m wal).effects.mediateCalls = 0 ∧
      (handle_message_lockedtransfer raiden m wal).raised = false) := by
  constructor
  · simp only [handle_message_lockedtransfer]
    split <;> first
    | rfl
    | (split <;> rfl)
  · intro h
    simp [handle_message_lockedtransfer, h, Effects.none]

/-- A registry that reports every secret as registered, for instantiating
the registered-secret branch. -/
def envRegistered : Env := { baseEnv with is_secret_registered := fun _ _ => true }

/-- Witness for C2 at a concrete registered transfer. -/
theorem lockedtransfer_latest_query_and_registered_drop_witness :
    envRegistered.is_secret_registered sampleTransfer.lock.secrethash "latest" = true ∧
    (handle_message_lockedtransfer envRegistered sampleTransfer []).effects.registryQueries =
      [(2, "latest")] ∧
    (handle_message_lockedtransfer envRegistered sampleTransfer []).effects.stateChanges = [] ∧
    (handle_message_lockedtransfer envRegistered sampleTransfer []).effects.targetCalls = 0 :=
  ⟨rfl,
   (lockedtransfer_latest_query_and_registered_drop envRegistered [] sampleTransfer).1,
   ((lockedtransfer_latest_query_and_registered_drop envRegistered [] sampleTransfer).2 rfl).2.1,
   ((lockedtransfer_latest_query_and_registered_drop envRegistered [] sampleTransfer).2 rfl).2.2.1⟩

/-- C10: for Unlock, LockExpired, RefundTransfer and LockedTransfer
messages, dispatch never consults the delegated-client flag: two runs
differing only in `is_light_client` produce identical results. -/
theorem dispatch_flag_independent_four_kinds (raiden : Env) (wal : Wal) :
    (∀ m : UnlockMsg,
      on_message raiden (.unlock m) true wal = on_message raiden (.unlock m) false wal) ∧
    (∀ m : LockExpiredMsg,
      on_message raiden (.lockExpired m) true wal = on_message raiden (.lockExpired m) false wal) ∧
    (∀ m : LockedTransferData,
      on_message raiden (.refundTransfer m) true wal = on_message raiden (.refundTransfer m) false wal) ∧
    (∀ m : LockedTransferData,
      on_message raiden (.lockedTransfer m) true wal = on_message raiden (.lockedTransfer m) false wal) :=
  ⟨fun _ => rfl, fun _ => rfl, fun _ => rfl, fun _ => rfl⟩

/-- C3: a RefundTransfer for which the resolved role is Initiator and the
known-secret lookup returns the empty sentinel yields one
ReceiveTransferRefundCancelRoute state change with an empty route list
and the freshly generated random secret, which differs from the empty
sentinel; the secret generator is invoked exactly once. -/
theorem refund_initiator_no_secret_discards_routes (raiden : Env) (wal : Wal)
    (m : LockedTransferData)
    (hrole : raiden.get_transfer_role
      (raiden.lockedtransfersigned_from_message m).lock.secrethash = "initiator")
    (hsec : raiden.get_transfer_secret
      (raiden.lockedtransfersigned_from_message m).lock.secrethash = EMPTY_SECRET) :
    (handle_message_refundtransfer raiden m wal).effects.stateChanges =
      [StateChange.receiveTransferRefundCancelRoute []
        (raiden.lockedtransfersigned_from_message m) raiden.random_secret] ∧
    raiden.random_secret ≠ EMPTY_SECRET ∧
    (handle_message_refundtransfer raiden m wal).effects.randomSecretCalls = 1 := by
  refine ⟨?_, raiden.random_secret_nonempty, ?_⟩ <;>
    simp [handle_message_refundtransfer, hrole, hsec, Effects.none]

/-- An environment in which the local node is the initiator for every
secret hash and the known-secret lookup returns the empty sentinel. -/
def envInitiatorNoSecret : Env :=
  { baseEnv with get_transfer_role := fun _ => "initiator" }

/-- Witness for C3 at a concrete refund transfer. -/
theorem refund_initiator_no_secret_discards_routes_witness :
    envInitiatorNoSecret.get_transfer_role 2 = "initiator" ∧
    envInitiatorNoSecret.get_transfer_secret 2 = EMPTY_SECRET ∧
    (handle_message_refundtransfer envInitiatorNoSecret sampleTransfer []).effects.stateChanges =
      [StateChange.receiveTransferRefundCancelRoute [] ⟨3, ⟨1, 2⟩⟩ 5] :=
  ⟨rfl, rfl,
   (refund_initiator_no_secret_discards_routes envInitiatorNoSecret [] sampleTransfer rfl rfl).1⟩

/-- C4: a RefundTransfer for which the resolved role is Initiator and the
known-secret lookup returns a non-sentinel secret yields one
ReceiveTransferRefundCancelRoute state change carrying the route
resolver's route list unmodified. -/
theorem refund_initiator_known_secret_keeps_routes (raiden : Env) (wal : Wal)
    (m : LockedTransferData)
    (hrole : raiden.get_transfer_role
      (raiden.lockedtransfersigned_from_message m).lock.secrethash = "initiator")
    (hsec : raiden.get_transfer_secret
      (raiden.lockedtransfersigned_from_message m).lock.secrethash ≠ EMPTY_SECRET) :
    (handle_message_refundtransfer raiden m wal).effects.stateChanges =
      [StateChange.receiveTransferRefundCancelRoute
        (raiden.get_best_routes m.token_network_address raiden.address
          (raiden.lockedtransfersigned_from_message m).target
          (raiden.lockedtransfersigned_from_message m).lock.amount m.sender)
        (raiden.lockedtransfersigned_from_message m) raiden.random_secret] := by
  simp [handle_message_refundtransfer, hrole, hsec, Effects.none]

/-- An environment in which the local node is the initiator for every
secret hash and the known-secret lookup returns the non-sentinel secret 8. -/
def envInitiatorKnownSecret : Env :=
  { baseEnv with
    get_transfer_role := fun _ => "initiator",
    get_transfer_secret := fun _ => 8 }

/-- Witness for C4 at a concrete refund transfer: the emitted route list
is the resolver's list `[7]`, not forced empty. -/
theorem refund_initiator_known_secret_keeps_routes_witness :
    envInitiatorKnownSecret.get_transfer_role 2 = "initiator" ∧
    envInitiatorKnownSecret.get_transfer_secret 2 ≠ EMPTY_SECRET ∧
    (handle_message_refundtransfer envInitiatorKnownSecret sampleTransfer []).effects.stateChanges =
      [StateChange.receiveTransferRefundCancelRoute [7] ⟨3, ⟨1, 2⟩⟩ 5] :=
  ⟨rfl, by decide,
   refund_initiator_known_secret_keeps_routes envInitiatorKnownSecret [] sampleTransfer
     rfl (by decide)⟩

/-- C5: a RefundTransfer for which the resolved role is not Initiator
yields one plain ReceiveTransferRefund state change carrying the
reconstructed transfer and the resolved route list - a variant with no
secret field - and the secret generator is not invoked. -/
theorem refund_non_initiator_plain_refund (raiden : Env) (wal : Wal)
    (m : LockedTransferData)
    (hrole : raiden.get_transfer_role
      (raiden.lockedtransfersigned_from_message m).lock.secrethash ≠ "initiator") :
    (handle_message_refundtransfer raiden m wal).effects.stateChanges =
      [StateChange.receiveTransferRefund (raiden.lockedtransfersigned_from_message m)
        (raiden.get_best_routes m.token_network_address raiden.address
          (raiden.lockedtransfersigned_from_message m).target
          (raiden.lockedtransfersigned_from_message m).lock.amount m.sender)] ∧
    (handle_message_refundtransfer raiden m wal).effects.randomSecretCalls = 0 := by
  constructor <;> simp [handle_message_refundtransfer, hrole, Effects.none]

/-- Witness for C5 at a concrete refund transfer in the mediator role. -/
theorem refund_non_initiator_plain_refund_witness :
    baseEnv.get_transfer_role 2 ≠ "initiator" ∧
    (handle_message_refundtransfer baseEnv sampleTransfer []).effects.stateChanges =
      [StateChange.receiveTransferRefund ⟨3, ⟨1, 2⟩⟩ [7]] ∧
    (handle_message_refundtransfer baseEnv sampleTransfer []).effects.randomSecretCalls = 0 :=
  ⟨by decide,
   (refund_non_initiator_plain_refund baseEnv [] sampleTransfer (by decide)).1,
   (refund_non_initiator_plain_refund baseEnv [] sampleTransfer (by decide)).2⟩

/-- C8: for Unlock and LockExpired messages, a failure of balance-proof
derivation propagates to the caller as a handling failure and no state
change is submitted. -/
theorem unlock_lockexpired_derivation_failure_no_submission (raiden : Env)
    (wal : Wal) (is_light_client : Bool) (mu : UnlockMsg) (ml : LockExpiredMsg)
    (hu : raiden.balanceproof_from_envelope mu.envelope = Option.none)
    (hl : raiden.balanceproof_from_envelope ml.envelope = Option.none) :
    (on_message raiden (.unlock mu) is_light_client wal).raised = true ∧
    (on_message raiden (.unlock mu) is_light_client wal).effects.stateChanges = [] ∧
    (on_message raiden (.lockExpired ml) is_light_client wal).raised = true ∧
    (on_message raiden (.lockExpired ml) is_light_client wal).effects.stateChanges = [] := by
  refine ⟨?_, ?_, ?_, ?_⟩ <;>
    simp [on_message, handle_message_unlock, handle_message_lockexpired,
      tagHandler, hu, hl, Effects.none]

/-- An environment whose balance-proof derivation always fails. -/
def envDeriveFail : Env :=
  { baseEnv with balanceproof_from_envelope := fun _ => Option.none }

/-- Witness for C8 at concrete Unlock and LockExpired messages. -/
theorem unlock_lockexpired_derivation_failure_no_submission_witness :
    envDeriveFail.balanceproof_from_envelope 3 = Option.none ∧
    (on_message envDeriveFail (.unlock ⟨1, 2, 3⟩) false []).raised = true ∧
    (on_message envDeriveFail (.unlock ⟨1, 2, 3⟩) false []).effects.stateChanges = [] ∧
    (on_message envDeriveFail (.lockExpired ⟨4, 5, 3⟩) false []).raised = true ∧
    (on_message envDeriveFail (.lockExpired ⟨4, 5, 3⟩) false []).effects.stateChanges = [] :=
  ⟨rfl,
   (unlock_lockexpired_derivation_failure_no_submission envDeriveFail [] false
     ⟨1, 2, 3⟩ ⟨4, 5, 3⟩ rfl rfl).1,
   (unlock_lockexpired_derivation_failure_no_submission envDeriveFail [] false
     ⟨1, 2, 3⟩ ⟨4, 5, 3⟩ rfl rfl).2.1,
   (unlock_lockexpired_derivation_failure_no_submission envDeriveFail [] false
     ⟨1, 2, 3⟩ ⟨4, 5, 3⟩ rfl rfl).2.2.1,
   (unlock_lockexpired_derivation_failure_no_submission envDeriveFail [] false
     ⟨1, 2, 3⟩ ⟨4, 5, 3⟩ rfl rfl).2.2.2⟩

/-- `store_ack_message` written with the key-triple projections named:
the definitional normal form used by the acknowledgment-store proofs. -/
theorem store_ack_message_eq (raiden : Env) (message : Ack) (wal : Wal) :
    store_ack_message raiden message wal =
      if ackOrder raiden message = -1 then
        ([⟨.error, "Unable to find principal message for"⟩], wal)
      else if wal.any (storedKeyMatches (ackMessageIdentifier message)
          (ackPaymentId raiden message) (ackOrder raiden message)) then
        ([⟨.info, "Message for lc already received, ignoring db storage"⟩], wal)
      else
        ([], ⟨ackMessageIdentifier message, ackPaymentId raiden message,
              ackOrder raiden message, message, true⟩ :: wal) := rfl

/-- C7: a Processed/Delivered acknowledgment whose (principal kind, ack
kind) pairing is absent from the ordering table (ordinal -1) produces
exactly one error log and leaves the durable log untouched (zero stored
records), returning normally. -/
theorem store_ack_unknown_order_drops (raiden : Env) (message : Ack) (wal : Wal)
    (h : ackOrder raiden message = -1) :
    store_ack_message raiden message wal =
      ([⟨.error, "Unable to find principal message for"⟩], wal) := by
  rw [store_ack_message_eq, if_pos h]

/-- An ordering table with no known pairings at all. -/
def envNoOrder : Env := { baseEnv with get_order_for_ack := fun _ _ => -1 }

/-- Witness for C7 at a concrete Processed acknowledgment. -/
theorem store_ack_unknown_order_drops_witness :
    ackOrder envNoOrder (.processed ⟨1, 2⟩) = -1 ∧
    store_ack_message envNoOrder (.processed ⟨1, 2⟩) [] =
      ([⟨.error, "Unable to find principal message for"⟩], []) :=
  ⟨rfl, store_ack_unknown_order_drops envNoOrder (.processed ⟨1, 2⟩) [] rfl⟩

theorem storedKeyMatches_self (mid : MessageId) (pid : PaymentId) (ord : Int)
    (content : Ack) (b : Bool) :
    storedKeyMatches mid pid ord ⟨mid, pid, ord, content, b⟩ = true := by
  simp [storedKeyMatches]

theorem countKey_eq_zero_of_any_false (wal : Wal) (mid : MessageId)
    (pid : PaymentId) (ord : Int)
    (h : wal.any (storedKeyMatches mid pid ord) = false) :
    countKey wal mid pid ord = 0 := by
  rw [List.any_eq_false] at h
  rw [countKey, List.countP_eq_zero]
  exact h

theorem countKey_pos_of_any_true (wal : Wal) (mid : MessageId)
    (pid : PaymentId) (ord : Int)
    (h : wal.any (storedKeyMatches mid pid ord) = true) :
    0 < countKey wal mid pid ord := by
  rw [List.any_eq_true] at h
  rw [countKey, List.countP_pos_iff]
  exact h

theorem countKey_cons_le_one (wal : Wal) (rec : StoredRecord)
    (hinv : ∀ mid pid ord, countKey wal mid pid ord ≤ 1)
    (hz : countKey wal rec.message_identifier rec.payment_id rec.order = 0)
    (mid : MessageId) (pid : PaymentId) (ord : Int) :
    countKey (rec :: wal) mid pid ord ≤ 1 := by
  rw [countKey, List.countP_cons]
  by_cases hm : storedKeyMatches mid pid ord rec = true
  · have hkey : (rec.message_identifier = mid ∧ rec.payment_id = pid) ∧ rec.order = ord := by
      simpa [storedKeyMatches, Bool.and_eq_true] using hm
    obtain ⟨⟨h1, h2⟩, h3⟩ := hkey
    subst h1
    subst h2
    subst h3
    have hz' : wal.countP
        (storedKeyMatches rec.message_identifier rec.payment_id rec.order) = 0 := hz
    rw [hm, hz']
    simp
  · have hm' : storedKeyMatches mid pid ord rec = false := by simpa using hm
    rw [hm']
    simpa [countKey] using hinv mid pid ord

/-- C6: `store_ack_message` preserves the invariant that at most one
record is stored per (message identifier, payment identifier, ordinal)
triple: when the ordering table knows the pairing, after one storage
attempt exactly one record exists for the acknowledgment's triple, and a
second attempt for the same acknowledgment performs no write and logs at
informational level. -/
theorem store_ack_idempotent (raiden : Env) (message : Ack) (wal : Wal)
    (hinv : ∀ mid pid ord, countKey wal mid pid ord ≤ 1)
    (horder : ackOrder raiden message ≠ -1) :
    (∀ mid pid ord,
      countKey (store_ack_message raiden message wal).2 mid pid ord ≤ 1) ∧
    countKey (store_ack_message raiden message wal).2 (ackMessageIdentifier message)
      (ackPaymentId raiden message) (ackOrder raiden message) = 1 ∧
    store_ack_message raiden message (store_ack_message raiden message wal).2 =
      ([⟨.info, "Message for lc already received, ignoring db storage"⟩],
       (store_ack_message raiden message wal).2) := by
  by_cases hex : wal.any (storedKeyMatches (ackMessageIdentifier message)
      (ackPaymentId raiden message) (ackOrder raiden message)) = true
  · have hw1 : store_ack_message raiden message wal =
        ([⟨.info, "Message for lc already received, ignoring db storage"⟩], wal) := by
      rw [store_ack_message_eq, if_neg horder, if_pos hex]
    rw [hw1]
    exact ⟨hinv,
      Nat.le_antisymm (hinv _ _ _) (countKey_pos_of_any_true _ _ _ _ hex),
      hw1⟩
  · have hex' : wal.any (storedKeyMatches (ackMessageIdentifier message)
        (ackPaymentId raiden message) (ackOrder raiden message)) = false := by
      simpa using hex
    have hzero : countKey wal (ackMessageIdentifier message)
        (ackPaymentId raiden message) (ackOrder raiden message) = 0 :=
      countKey_eq_zero_of_any_false _ _ _ _ hex'
    have hw1 : store_ack_message raiden message wal =
        ([], ⟨ackMessageIdentifier message, ackPaymentId raiden message,
              ackOrder raiden message, message, true⟩ :: wal) := by
      rw [store_ack_message_eq, if_neg horder, if_neg hex]
    rw [hw1]
    refine ⟨?_, ?_, ?_⟩
    · exact fun mid pid ord => countKey_cons_le_one wal _ hinv hzero mid pid ord
    · have hz' : wal.countP (storedKeyMatches (ackMessageIdentifier message)
          (ackPaymentId raiden message) (ackOrder raiden message)) = 0 := hzero
      simp [countKey, List.countP_cons, storedKeyMatches_self, hz']
    · rw [store_ack_message_eq, if_neg horder]
      have hany : ((⟨ackMessageIdentifier message, ackPaymentId raiden message,
            ackOrder raiden message, message, true⟩ : StoredRecord) :: wal).any
            (storedKeyMatches (ackMessageIdentifier message)
              (ackPaymentId raiden message) (ackOrder raiden message)) = true := by
        simp [List.any_cons, storedKeyMatches_self]
      rw [if_pos hany]

/-- Witness for C6 at a concrete Processed acknowledgment stored into an
empty log: one record after the first attempt, no write and one info log
on the second. -/
theorem store_ack_idempotent_witness :
    ackOrder baseEnv (.processed ⟨1, 2⟩) ≠ -1 ∧
    countKey (store_ack_message baseEnv (.processed ⟨1, 2⟩) []).2 2 9 3 = 1 ∧
    store_ack_message baseEnv (.processed ⟨1, 2⟩)
        (store_ack_message baseEnv (.processed ⟨1, 2⟩) []).2 =
      ([⟨.info, "Message for lc already received, ignoring db storage"⟩],
       (store_ack_message baseEnv (.processed ⟨1, 2⟩) []).2) :=
  ⟨by decide,
   (store_ack_idempotent baseEnv (.processed ⟨1, 2⟩) []
     (fun _ _ _ => by simp [countKey]) (by decide)).2.1,
   (store_ack_idempotent baseEnv (.processed ⟨1, 2⟩) []
     (fun _ _ _ => by simp [countKey]) (by decide)).2.2⟩

/-- C9 counterexample: a LockedTransfer message - a recognized kind, for
which dispatch invokes exactly one handler - produces zero state-change
submissions (the handler hands the transfer to the mediation flow and
submits nothing), refuting "every recognized kind produces exactly one
state-change submission". -/
theorem dispatch_one_submission_cex :
    (on_message baseEnv (.lockedTransfer sampleTransfer) false []).effects.handlers.length = 1 ∧
    (on_message baseEnv (.lockedTransfer sampleTransfer) false []).effects.stateChanges.length = 0 :=
  ⟨rfl, rfl⟩

/-- C9 (amended): for every message of a recognized kind, dispatch
invokes exactly one handler; every kind except LockedTransfer produces
exactly one state-change submission (for Unlock/LockExpired: whenever no
handling failure is raised), with one additional acknowledgment-store
attempt for Processed/Delivered from a delegated client; LockedTransfer
produces zero state-change submissions and instead invokes exactly one
target/mediation flow when the secret is unregistered and none when it
is registered. -/
theorem dispatch_effect_counts (raiden : Env) (wal : Wal) (is_light_client : Bool) :
    (∀ m : SecretRequestMsg,
      (on_message raiden (.secretRequest m) is_light_client wal).effects.handlers.length = 1 ∧
      (on_message raiden (.secretRequest m) is_light_client wal).effects.stateChanges.length = 1 ∧
      (on_message raiden (.secretRequest m) is_light_client wal).effects.storeAttempts = 0) ∧
    (∀ m : RevealSecretMsg,
      (on_message raiden (.revealSecret m) is_light_client wal).effects.handlers.length = 1 ∧
      (on_message raiden (.revealSecret m) is_light_client wal).effects.stateChanges.length = 1 ∧
      (on_message raiden (.revealSecret m) is_light_client wal).effects.storeAttempts = 0) ∧
    (∀ m : UnlockMsg,
      (on_message raiden (.unlock m) is_light_client wal).effects.handlers.length = 1 ∧
      ((on_message raiden (.unlock m) is_light_client wal).raised = false →
        (on_message raiden (.unlock m) is_light_client wal).effects.stateChanges.length = 1) ∧
      (on_message raiden (.unlock m) is_light_client wal).effects.storeAttempts = 0) ∧
    (∀ m : LockExpiredMsg,
      (on_message raiden (.lockExpired m) is_light_client wal).effects.handlers.length = 1 ∧
      ((on_message raiden (.lockExpired m) is_light_client wal).raised = false →
        (on_message raiden (.lockExpired m) is_light_client wal).effects.stateChanges.length = 1) ∧
      (on_message raiden (.lockExpired m) is_light_client wal).effects.storeAttempts = 0) ∧
    (∀ m : LockedTransferData,
      (on_message raiden (.refundTransfer m) is_light_client wal).effects.handlers.length = 1 ∧
      (on_message raiden (.refundTransfer m) is_light_client wal).effects.stateChanges.length = 1 ∧
      (on_message raiden (.refundTransfer m) is_light_client wal).effects.storeAttempts = 0) ∧
    (∀ m : LockedTransferData,
      (on_message raiden (.lockedTransfer m) is_light_client wal).effects.handlers.length = 1 ∧
      (on_message raiden (.lockedTransfer m) is_light_client wal).effects.stateChanges.length = 0 ∧
      (on_message raiden (.lockedTransfer m) is_light_client wal).effects.storeAttempts = 0 ∧
      (on_message raiden (.lockedTransfer m) is_light_client wal).effects.targetCalls +
        (on_message raiden (.lockedTransfer m) is_light_client wal).effects.mediateCalls =
        (if raiden.is_secret_registered m.lock.secrethash "latest" then 0 else 1)) ∧
    (∀ m : ProcessedMsg,
      (on_message raiden (.processed m) is_light_client wal).effects.handlers.length = 1 ∧
      (on_message raiden (.processed m) is_light_client wal).effects.stateChanges.length = 1 ∧
      (on_message raiden (.processed m) is_light_client wal).effects.storeAttempts =
        (if is_light_client then 1 else 0)) ∧
    (∀ m : DeliveredMsg,
      (on_message raiden (.delivered m) is_light_client wal).effects.handlers.length = 1 ∧
      (on_message raiden (.delivered m) is_light_client wal).effects.stateChanges.length = 1 ∧
      (on_message raiden (.delivered m) is_light_client wal).effects.storeAttempts =
        (if is_light_client then 1 else 0)) := by
  refine ⟨?_, ?_, ?_, ?_, ?_, ?_, ?_, ?_⟩
  · intro m
    cases is_light_client <;>
      simp [on_message, handle_message_secretrequest, tagHandler, Effects.none]
  · intro m
    cases is_light_client <;>
      simp [on_message, handle_message_revealsecret, tagHandler, Effects.none]
  · intro m
    rcases hbp : raiden.balanceproof_from_envelope m.envelope with _ | bp <;>
      simp [on_message, handle_message_unlock, tagHandler, Effects.none, hbp]
  · intro m
    rcases hbp : raiden.balanceproof_from_envelope m.envelope with _ | bp <;>
      simp [on_message, handle_message_lockexpired, tagHandler, Effects.none, hbp]
  · intro m
    simp only [on_message, handle_message_refundtransfer, tagHandler]
    split <;> simp [Effects.none]
  · intro m
    by_cases htgt : m.target = raiden.address <;>
      rcases hreg : raiden.is_secret_registered m.lock.secrethash "latest" <;>
      simp [on_message, handle_message_lockedtransfer, tagHandler, Effects.none, hreg, htgt]
  · intro m
    cases is_light_client <;>
      simp [on_message, handle_message_processed, tagHandler, Effects.none]
  · intro m
    cases is_light_client <;>
      simp [on_message, handle_message_delivered, tagHandler, Effects.none]

/-- Witness for C9 (amended) at concrete messages: a successfully derived
Unlock produces one submission, and a Processed acknowledgment from a
delegated client produces one submission plus one store attempt. -/
theorem dispatch_effect_counts_witness :
    (on_message baseEnv (.unlock ⟨1, 2, 3⟩) false []).raised = false ∧
    (on_message baseEnv (.unlock ⟨1, 2, 3⟩) false []).effects.stateChanges.length = 1 ∧
    (on_message baseEnv (.processed ⟨1, 2⟩) true []).effects.stateChanges.length = 1 ∧
    (on_message baseEnv (.processed ⟨1, 2⟩) true []).effects.storeAttempts = 1 := by
  refine ⟨rfl, ((dispatch_effect_counts baseEnv [] false).2.2.1 ⟨1, 2, 3⟩).2.1 rfl,
    ((dispatch_effect_counts baseEnv [] true).2.2.2.2.2.2.1 ⟨1, 2⟩).2.1, ?_⟩
  have h := ((dispatch_effect_counts baseEnv [] true).2.2.2.2.2.2.1 ⟨1, 2⟩).2.2
  simpa using h

end Raiden
